import Mathlib

/-!
Shallow embedding of `PRESUBMIT.py` from chromiumos-infra-go: a presubmit
check runner (`CheckGolangRunTests`), a check aggregator (`CommonChecks`),
and two entry-point aliases (`CheckChangeOnUpload`, `CheckChangeOnCommit`).

Python exceptions are modelled explicitly with `Except`: a raised exception
is observable only through its class name and (optional) `output` attribute,
which is all the runner inspects. `input_api.subprocess.check_output` is
modelled as a function from an argv list to either the captured output text
(exit code 0) or a raised exception (non-zero exit or launch failure).
-/

namespace Presubmit

/-- An error report surfaced to the review tool, per the spec's data model:
attributes `message` and `details` (both strings). -/
structure ErrorReport where
  message : String
  details : String
deriving DecidableEq, Repr

/-- A raised Python exception, as far as the runner can observe it: the
exception's class name, and the value of its `output` attribute when the
object has one (`none` models an exception with no `output` attribute,
e.g. the `OSError` raised when the script binary is missing). -/
structure PyExc where
  name : String
  output : Option String
deriving DecidableEq, Repr

/-- The `AttributeError` raised by the Python expression `error.output`
when `error` has no `output` attribute. -/
def attributeErrorOutput : PyExc := { name := "AttributeError", output := none }

/-- `input_api.subprocess.check_output`, as observable by the caller: maps
an argv list to either the captured output text (on exit code 0) or a
raised exception (non-zero exit raises `CalledProcessError` carrying the
output; a launch failure raises an exception that may carry none). -/
def InputApi : Type := List String → Except PyExc String

/-- Modelled from the spec: the host `output_api` object, which is not part
of this repository. The spec gives it one capability, the report factory
`PresubmitError` (`makeError(message, details) -> ErrorReport`); its
`details` parameter is optional, `none` modelling a call that omits it. -/
structure OutputApi where
  PresubmitError : String → Option String → ErrorReport

/-- Modelled from the spec: the host's standard report factory, which
stores the message and details into the report's two fields, the omitted
`details` argument defaulting to the empty string. -/
def hostOutputApi : OutputApi :=
  { PresubmitError := fun message details =>
      { message := message, details := details.getD "" } }

/-- `CheckGolangRunTests(input_api, output_api)` (PRESUBMIT.py lines 5-13):
runs `./run_tests.sh` via `check_output`; on success returns `[]`; on any
exception returns one `PresubmitError` built from the single format string
`'run_tests.sh failed.\noutput:%s\n' % error.output`. The attribute access
`error.output` itself raises `AttributeError` when the exception object has
no `output` attribute, and that exception propagates. -/
def CheckGolangRunTests (input_api : InputApi) (output_api : OutputApi) :
    Except PyExc (List ErrorReport) :=
  match input_api ["./run_tests.sh"] with
  | Except.ok _test_output => Except.ok []
  | Except.error error =>
      match error.output with
      | some o =>
          Except.ok
            [output_api.PresubmitError
              ("run_tests.sh failed." ++ "\n" ++ "output:" ++ o ++ "\n") none]
      | none => Except.error attributeErrorOutput

/-- `CheckGolangRunTests`, instrumented with a trace recording, in call
order, every argv list this invocation passes to
`input_api.subprocess.check_output`. The computation is the same as
`CheckGolangRunTests`; the single call site (PRESUBMIT.py line 7)
contributes its argv to the trace. -/
def CheckGolangRunTestsTraced (input_api : InputApi) (output_api : OutputApi) :
    Except PyExc (List ErrorReport) × List (List String) :=
  let argv := ["./run_tests.sh"]
  match input_api argv with
  | Except.ok _test_output => (Except.ok [], [argv])
  | Except.error error =>
      match error.output with
      | some o =>
          (Except.ok
            [output_api.PresubmitError
              ("run_tests.sh failed." ++ "\n" ++ "output:" ++ o ++ "\n") none],
           [argv])
      | none => (Except.error attributeErrorOutput, [argv])

/-- `CommonChecks(input_api, output_api)` (PRESUBMIT.py lines 16-22):
starts from `results = []`, extends it with the result of
`CheckGolangRunTests`, and returns it. An exception raised by the check
propagates out of the aggregator unchanged. -/
def CommonChecks (input_api : InputApi) (output_api : OutputApi) :
    Except PyExc (List ErrorReport) := do
  let results : List ErrorReport := []
  let r ← CheckGolangRunTests input_api output_api
  return results ++ r

/-- `CheckChangeOnUpload = CommonChecks` (PRESUBMIT.py line 26). -/
def CheckChangeOnUpload : InputApi → OutputApi → Except PyExc (List ErrorReport) :=
  CommonChecks

/-- `CheckChangeOnCommit = CommonChecks` (PRESUBMIT.py line 27). -/
def CheckChangeOnCommit : InputApi → OutputApi → Except PyExc (List ErrorReport) :=
  CommonChecks

/-- Modelled from the spec: the Check Aggregator contract
`collect(checks: sequence<() -> sequence<ErrorReport>>)`, which invokes
each supplied check function in sequence (registration order) and
concatenates their results; the code registers exactly one check. -/
def collect : List (Unit → Except PyExc (List ErrorReport)) →
    Except PyExc (List ErrorReport)
  | [] => Except.ok []
  | check :: rest => do
      let r ← check ()
      let rs ← collect rest
      return r ++ rs

/-- A `check_output` that succeeds with some captured output. -/
def okApi : InputApi := fun _ => Except.ok "ok: all tests passed\n"

/-- A `check_output` that succeeds with different (empty) captured output. -/
def okApiOther : InputApi := fun _ => Except.ok ""

/-- A `check_output` that raises `CalledProcessError` (non-zero exit)
carrying captured output. -/
def calledProcessErrorApi : InputApi :=
  fun _ => Except.error { name := "CalledProcessError", output := some "FAIL: test_x" }

/-- A `check_output` whose launch fails with an `OSError` (script binary
missing), an exception carrying no `output` attribute. -/
def launchFailApi : InputApi :=
  fun _ => Except.error { name := "OSError", output := none }

/-- Helper: `collect` on checks that all return successfully concatenates
their result lists in order. -/
theorem collect_map_ok (rs : List (List ErrorReport)) :
    collect (rs.map fun l => fun _ => Except.ok l) = Except.ok rs.flatten := by
  induction rs with
  | nil => rfl
  | cons l rest ih =>
      simp only [List.map, collect, ih, List.flatten_cons]
      rfl

/-- Claim C3 (confirmed): for every successful subprocess execution
(exit code 0), whatever output was captured, the runner returns the empty
sequence of error reports. -/
theorem success_returns_empty (input_api : InputApi) (output_api : OutputApi)
    (o : String) (h : input_api ["./run_tests.sh"] = Except.ok o) :
    CheckGolangRunTests input_api output_api = Except.ok [] := by
  unfold CheckGolangRunTests
  rw [h]

/-- Witness for `success_returns_empty` at a concrete successful api. -/
theorem success_returns_empty_witness :
    CheckGolangRunTests okApi hostOutputApi = Except.ok [] :=
  success_returns_empty okApi hostOutputApi "ok: all tests passed\n" rfl

/-- Claim C1 (counterexample): with a launch failure whose exception
carries no `output` attribute (script binary missing), the aggregator does
NOT return one ErrorReport: the `error.output` access raises
`AttributeError`, which propagates past the Check Aggregator boundary. -/
theorem launch_exc_no_output_counterexample :
    CommonChecks launchFailApi hostOutputApi = Except.error attributeErrorOutput ∧
    ¬ ∃ r : ErrorReport, CommonChecks launchFailApi hostOutputApi = Except.ok [r] := by
  refine ⟨rfl, ?_⟩
  rintro ⟨r, h⟩
  rw [show CommonChecks launchFailApi hostOutputApi = Except.error attributeErrorOutput
    from rfl] at h
  exact Except.noConfusion h

/-- Claim C1 (amended): when launching the subprocess fails with an
exception that carries no `output` attribute, the runner does not return an
ErrorReport at all: the attribute access `error.output` inside the handler
raises `AttributeError`, and that error propagates unchanged past the Check
Aggregator boundary. -/
theorem launch_exc_no_output_propagates (input_api : InputApi)
    (output_api : OutputApi) (n : String)
    (h : input_api ["./run_tests.sh"] = Except.error { name := n, output := none }) :
    CommonChecks input_api output_api = Except.error attributeErrorOutput := by
  unfold CommonChecks CheckGolangRunTests
  rw [h]
  rfl

/-- Witness for `launch_exc_no_output_propagates` at a concrete api whose
launch raises an output-less `OSError`. -/
theorem launch_exc_no_output_propagates_witness :
    CommonChecks launchFailApi hostOutputApi = Except.error attributeErrorOutput :=
  launch_exc_no_output_propagates launchFailApi hostOutputApi "OSError" rfl

/-- Claim C2 (counterexample): when the script exits 1 with output
`FAIL: test_x`, the single report's `message` field is not
`"run_tests.sh failed."` (it is the whole formatted string), and its
`details` field is empty rather than containing the output: message and
details are not populated as two separate fields. -/
theorem failure_report_fields_counterexample :
    CheckGolangRunTests calledProcessErrorApi hostOutputApi =
      Except.ok [{ message := "run_tests.sh failed.\noutput:FAIL: test_x\n",
                   details := "" }] ∧
    "run_tests.sh failed.\noutput:FAIL: test_x\n" ≠ "run_tests.sh failed." ∧
    ¬ ∃ pre post : String, ("" : String) = pre ++ "FAIL: test_x" ++ post := by
  refine ⟨rfl, by decide, ?_⟩
  rintro ⟨pre, post, h⟩
  have hlen : ("" : String).length = (pre ++ "FAIL: test_x" ++ post).length := by
    rw [h]
  simp [String.length_append] at hlen
  have h12 : ("FAIL: test_x" : String).length = 12 := rfl
  omega

/-- Claim C2 (amended): for every failing execution whose exception carries
captured output `o`, the runner returns exactly one ErrorReport whose
`message` field is the single combined string
`"run_tests.sh failed.\noutput:" ++ o ++ "\n"` (so the message contains
`o`), while the `details` field is left empty: the output lands inside the
message, not in a separate details field. -/
theorem failure_report_message_contains_output (input_api : InputApi)
    (n o : String)
    (h : input_api ["./run_tests.sh"] = Except.error { name := n, output := some o }) :
    CheckGolangRunTests input_api hostOutputApi =
      Except.ok [{ message := "run_tests.sh failed." ++ "\n" ++ "output:" ++ o ++ "\n",
                   details := "" }] ∧
    ∃ pre post : String,
      ("run_tests.sh failed." ++ "\n" ++ "output:" ++ o ++ "\n") = pre ++ o ++ post := by
  constructor
  · unfold CheckGolangRunTests
    rw [h]
    rfl
  · exact ⟨"run_tests.sh failed." ++ "\n" ++ "output:", "\n", by simp [String.append_assoc]⟩

/-- Witness for `failure_report_message_contains_output` at a concrete api
raising `CalledProcessError` with output `FAIL: test_x`. -/
theorem failure_report_message_contains_output_witness :
    CheckGolangRunTests calledProcessErrorApi hostOutputApi =
      Except.ok [{ message := "run_tests.sh failed." ++ "\n" ++ "output:" ++ "FAIL: test_x" ++ "\n",
                   details := "" }] ∧
    ∃ pre post : String,
      ("run_tests.sh failed." ++ "\n" ++ "output:" ++ "FAIL: test_x" ++ "\n") =
        pre ++ "FAIL: test_x" ++ post :=
  failure_report_message_contains_output calledProcessErrorApi "CalledProcessError"
    "FAIL: test_x" rfl

/-- Claim C4 (confirmed): the aggregator invokes each registered check in
registration order and returns exactly the in-order concatenation of their
result sequences; and `CommonChecks`, which registers the single check
`CheckGolangRunTests`, returns exactly that check's result. -/
theorem aggregator_concatenates_in_order :
    (∀ rs : List (List ErrorReport),
      collect (rs.map fun l => fun _ => Except.ok l) = Except.ok rs.flatten) ∧
    ∀ (input_api : InputApi) (output_api : OutputApi),
      CommonChecks input_api output_api = CheckGolangRunTests input_api output_api := by
  refine ⟨collect_map_ok, fun input_api output_api => ?_⟩
  cases h : CheckGolangRunTests input_api output_api <;>
    simp [CommonChecks, h]

/-- Claim C5 (confirmed): the on-upload and on-commit entry points are
bound to the same aggregator, so they produce identical results on
identical input and output context objects. -/
theorem entry_points_agree (input_api : InputApi) (output_api : OutputApi) :
    CheckChangeOnUpload input_api output_api =
      CheckChangeOnCommit input_api output_api := rfl

/-- Claim C6 (confirmed): every invocation of the runner passes exactly the
argv `["./run_tests.sh"]` — the fixed command with no additional
arguments — to `check_output` (whose captured output is text), and the
traced runner computes the same result as the runner. -/
theorem runner_executes_fixed_command (input_api : InputApi) (output_api : OutputApi) :
    (CheckGolangRunTestsTraced input_api output_api).2 = [["./run_tests.sh"]] ∧
    (CheckGolangRunTestsTraced input_api output_api).1 =
      CheckGolangRunTests input_api output_api := by
  cases h : input_api ["./run_tests.sh"] with
  | ok o => simp [CheckGolangRunTestsTraced, CheckGolangRunTests, h]
  | error e =>
      cases ho : e.output <;>
        simp [CheckGolangRunTestsTraced, CheckGolangRunTests, h, ho]

/-- Claim C7 (confirmed): whenever the runner returns a result sequence, it
has length at most one: it is empty or contains exactly one ErrorReport. -/
theorem result_at_most_one (input_api : InputApi) (output_api : OutputApi)
    (l : List ErrorReport)
    (h : CheckGolangRunTests input_api output_api = Except.ok l) :
    l = [] ∨ ∃ r : ErrorReport, l = [r] := by
  unfold CheckGolangRunTests at h
  split at h
  · injection h with h1
    exact Or.inl h1.symm
  · split at h
    · injection h with h1
      exact Or.inr ⟨_, h1.symm⟩
    · exact Except.noConfusion h

/-- Witness for `result_at_most_one` at a concrete failing api: the
returned singleton is indeed of length at most one. -/
theorem result_at_most_one_witness :
    ([{ message := "run_tests.sh failed.\noutput:FAIL: test_x\n", details := "" }]
        : List ErrorReport) = [] ∨
    ∃ r : ErrorReport,
      ([{ message := "run_tests.sh failed.\noutput:FAIL: test_x\n", details := "" }]
        : List ErrorReport) = [r] :=
  result_at_most_one calledProcessErrorApi hostOutputApi
    [{ message := "run_tests.sh failed.\noutput:FAIL: test_x\n", details := "" }] rfl

/-- Claim C8 (confirmed): in every invocation, under every subprocess
outcome (success, failure with output, failure without), the external
command is launched exactly once: the call trace has length one. -/
theorem subprocess_launched_once (input_api : InputApi) (output_api : OutputApi) :
    ((CheckGolangRunTestsTraced input_api output_api).2).length = 1 := by
  cases h : input_api ["./run_tests.sh"] with
  | ok o => simp [CheckGolangRunTestsTraced, h]
  | error e =>
      cases ho : e.output <;> simp [CheckGolangRunTestsTraced, h, ho]

/-- Claim C9 (confirmed): on success the captured output is bound but never
used — two successful executions with arbitrarily different captured
outputs yield the same (empty) result. -/
theorem success_output_noninterference (output_api : OutputApi)
    (input_api₁ input_api₂ : InputApi) (o₁ o₂ : String)
    (h₁ : input_api₁ ["./run_tests.sh"] = Except.ok o₁)
    (h₂ : input_api₂ ["./run_tests.sh"] = Except.ok o₂) :
    CheckGolangRunTests input_api₁ output_api =
      CheckGolangRunTests input_api₂ output_api := by
  unfold CheckGolangRunTests
  rw [h₁, h₂]

/-- Witness for `success_output_noninterference` at two concrete successful
apis with different captured outputs. -/
theorem success_output_noninterference_witness :
    CheckGolangRunTests okApi hostOutputApi =
      CheckGolangRunTests okApiOther hostOutputApi :=
  success_output_noninterference hostOutputApi okApi okApiOther
    "ok: all tests passed\n" "" rfl rfl

/-- Claim C10 (confirmed): on a failure whose exception carries output `o`,
the single report is built by one call to the host report factory with
exactly one string argument, `"run_tests.sh failed."` followed by a
newline, the text `"output:"`, `o`, and a trailing newline; the `details`
argument is not passed (`none`). -/
theorem report_built_by_single_factory_call (input_api : InputApi)
    (output_api : OutputApi) (n o : String)
    (h : input_api ["./run_tests.sh"] = Except.error { name := n, output := some o }) :
    CheckGolangRunTests input_api output_api =
      Except.ok [output_api.PresubmitError
        ("run_tests.sh failed." ++ "\n" ++ "output:" ++ o ++ "\n") none] := by
  unfold CheckGolangRunTests
  rw [h]

/-- Witness for `report_built_by_single_factory_call` at a concrete api
raising `CalledProcessError` with output `FAIL: test_x`. -/
theorem report_built_by_single_factory_call_witness :
    CheckGolangRunTests calledProcessErrorApi hostOutputApi =
      Except.ok [hostOutputApi.PresubmitError
        ("run_tests.sh failed." ++ "\n" ++ "output:" ++ "FAIL: test_x" ++ "\n") none] :=
  report_built_by_single_factory_call calledProcessErrorApi hostOutputApi
    "CalledProcessError" "FAIL: test_x" rfl

end Presubmit
